import Mathlib

/-!
Shallow embedding of the prompt store of mcp-server-notion-prompt.

The cache-and-query layer, the record normalizer and the template composition
engine live in src/src/notion.ts; the search and pagination tool handlers live
in the server files (src/unnamed/part_000, part_001, part_003).  Wall-clock
readings and the Notion connector round-trip are passed in explicitly, so every
operation is a pure function of the cache state, the current time and the
connector response.
-/

namespace NotionPrompt

/-- Character-level lowercasing, mirroring JavaScript toLowerCase on the ASCII
range exercised by the handlers. -/
def toLowerS (s : String) : String := ⟨s.data.map Char.toLower⟩

/-- Decides whether the pattern occurs at the head of the haystack. -/
def startsWithL : List Char → List Char → Bool
  | _, [] => true
  | [], _ :: _ => false
  | a :: hay, b :: pat => a == b && startsWithL hay pat

/-- JavaScript String.prototype.includes: the pattern occurs somewhere in the
haystack (the empty pattern always occurs). -/
def containsL : List Char → List Char → Bool
  | [], pat => pat.isEmpty
  | a :: hay, pat => startsWithL (a :: hay) pat || containsL hay pat

def containsS (hay pat : String) : Bool := containsL hay.data pat.data

/-- One step of a JavaScript global literal-pattern replace: scan left to
right, replace each non-overlapping occurrence, never rescanning replaced
text.  The fuel argument bounds the number of scan steps; each step consumes
at least one haystack character, so the haystack length is enough fuel. -/
def replaceAllF (pat rep : List Char) : Nat → List Char → List Char
  | _, [] => []
  | 0, hay => hay
  | fuel + 1, a :: hay =>
    if !pat.isEmpty && startsWithL (a :: hay) pat then
      rep ++ replaceAllF pat rep fuel ((a :: hay).drop pat.length)
    else
      a :: replaceAllF pat rep fuel hay

/-- JavaScript global replace of a literal pattern over a character list. -/
def replaceAllL (pat rep hay : List Char) : List Char :=
  replaceAllF pat rep hay.length hay

/-- JavaScript s.replace(new RegExp(pat, the g flag), rep) for a literal
pattern pat. -/
def replaceAllS (s pat rep : String) : String :=
  ⟨replaceAllL pat.data rep.data s.data⟩

/-- The canonical prompt entity (src/src/notion.ts lines 12-18). -/
structure Prompt where
  id : String
  name : String
  content : String
  description : String
  category : List String
  deriving DecidableEq

/-- The listing projection of a prompt, omitting its content
(src/src/notion.ts lines 21-26). -/
structure PromptInfo where
  id : String
  name : String
  description : String
  category : List String
  deriving DecidableEq

/-- One raw Notion page as the fetch loop reads it (src/src/notion.ts lines
161-167): each property is absent or a list of plain-text segments, and the
multi-select property is absent or a list of option names. -/
structure RawPage where
  id : String
  title : Option (List String)
  contentSegs : Option (List String)
  descriptionSegs : Option (List String)
  categoryNames : Option (List String)
  deriving DecidableEq

/-- Joins the plain-text segments of an optional rich-text property; an absent
property yields the empty string (src/src/notion.ts lines 175-176). -/
def joinSegs : Option (List String) → String
  | none => ""
  | some segs => String.join segs

/-- Normalizes one raw page into a Prompt, or skips it (src/src/notion.ts
lines 158-195).  A page whose Name title property is absent or an empty
segment list is skipped; the name is the first title segment's text; the
category list defaults to the single sentinel "未分类" (uncategorized) when
the multi-select is absent or empty. -/
def normalizeRecord (page : RawPage) : Option Prompt :=
  match page.title with
  | none => none
  | some [] => none
  | some (t :: _) =>
    let categories := page.categoryNames.getD []
    some {
      id := page.id
      name := t
      content := joinSegs page.contentSegs
      description := joinSegs page.descriptionSegs
      category := if categories.length = 0 then ["未分类"] else categories }

/-- Processes a batch of raw records as the fetch loop does (src/src/notion.ts
lines 158-199): a record whose property extraction throws is caught, logged
and skipped (modelled as an error value in the batch), a nameless record is
skipped, and every other record contributes its Prompt in order. -/
def normalizeBatch (records : List (Except String RawPage)) : List Prompt :=
  records.filterMap fun r =>
    match r with
    | Except.error _ => none
    | Except.ok page => normalizeRecord page

/-- The mutable fields of NotionService that the cache layer reads and writes
(src/src/notion.ts lines 46-48).  Times are in milliseconds. -/
structure CacheState where
  promptsCache : Option (List Prompt)
  lastCacheTime : Int
  cacheExpiryTime : Int
  deriving DecidableEq

/-- The constructor's initial cache state (src/src/notion.ts lines 46-48):
cold cache and a five-minute expiry. -/
def initialCacheState : CacheState :=
  { promptsCache := none, lastCacheTime := 0, cacheExpiryTime := 5 * 60 * 1000 }

/-- isCacheValid (src/src/notion.ts lines 108-113): the cache is non-null and
younger than the expiry window. -/
def isCacheValid (st : CacheState) (now : Int) : Bool :=
  st.promptsCache.isSome && decide (now - st.lastCacheTime < st.cacheExpiryTime)

/-- The outcome of one Notion database query, passed in explicitly: the list
of raw pages, or the error the connector failed with. -/
abbrev FetchResponse := Except String (List (Except String RawPage))

/-- The error message handleError raises for a failed database query
(src/src/notion.ts lines 99-103 and 207-209). -/
def fetchFailMsg (e : String) : String := "获取Notion数据库失败: " ++ e

/-- fetchPrompts (src/src/notion.ts lines 148-210): on connector success the
batch is normalized, the cache is replaced and the list returned; on failure
handleError throws a typed error and no state field is written. -/
def fetchPrompts (st : CacheState) (now : Int) (resp : FetchResponse) :
    Except String (List Prompt) × CacheState :=
  match resp with
  | Except.error e => (Except.error (fetchFailMsg e), st)
  | Except.ok records =>
    let prompts := normalizeBatch records
    (Except.ok prompts,
      { st with promptsCache := some prompts, lastCacheTime := now })

/-- getPrompts (src/src/notion.ts lines 136-143): serve the cached list on a
valid cache, otherwise fetch. -/
def getPrompts (st : CacheState) (now : Int) (resp : FetchResponse) :
    Except String (List Prompt) × CacheState :=
  if isCacheValid st now then (Except.ok (st.promptsCache.getD []), st)
  else fetchPrompts st now resp

/-- Number of connector queries one getPrompts call performs: zero on a cache
hit, one otherwise (fetchPrompts issues exactly one database query,
src/src/notion.ts line 152). -/
def promptFetchCount (st : CacheState) (now : Int) : Nat :=
  if isCacheValid st now then 0 else 1

/-- refreshCache (src/src/notion.ts lines 127-131): null the cache, then call
getPrompts. -/
def refreshCache (st : CacheState) (now : Int) (resp : FetchResponse) :
    Except String (List Prompt) × CacheState :=
  getPrompts { st with promptsCache := none } now resp

/-- clearCache (src/src/notion.ts lines 118-122). -/
def clearCache (st : CacheState) : CacheState :=
  { st with promptsCache := none, lastCacheTime := 0 }

/-- setCacheExpiryTime (src/src/notion.ts lines 305-313): values below 1000
milliseconds are clamped up to 1000 with a warning. -/
def setCacheExpiryTime (st : CacheState) (timeMs : Int) : CacheState :=
  { st with cacheExpiryTime := if timeMs < 1000 then 1000 else timeMs }

/-- getCacheExpiryTime (src/src/notion.ts lines 318-320). -/
def getCacheExpiryTime (st : CacheState) : Int := st.cacheExpiryTime

/-- findPromptByName over a resolved snapshot (src/src/notion.ts lines
215-228): first prompt whose name is strictly equal to the argument, or none. -/
def findPromptByName (prompts : List Prompt) (name : String) : Option Prompt :=
  prompts.find? fun p => p.name == name

/-- The wall-clock readings taken inside composePrompt (src/src/notion.ts
lines 269-275), passed in explicitly. -/
structure ComposeEnv where
  curDate : String
  curTime : String
  curDatetime : String
  deriving DecidableEq

def userInputTok : String := "\x7b\x7bUSER_INPUT\x7d\x7d"

def currentDateTok : String := "\x7b\x7bCURRENT_DATE\x7d\x7d"

def currentTimeTok : String := "\x7b\x7bCURRENT_TIME\x7d\x7d"

def currentDatetimeTok : String := "\x7b\x7bCURRENT_DATETIME\x7d\x7d"

def promptNameTok : String := "\x7b\x7bPROMPT_NAME\x7d\x7d"

/-- The second substitution pass of composePrompt: the four contextual
placeholders, globally replaced in the fixed ordering of the variables object
(src/src/notion.ts lines 269-279). -/
def substContextualVars (env : ComposeEnv) (promptName s : String) : String :=
  let s1 := replaceAllS s currentDateTok env.curDate
  let s2 := replaceAllS s1 currentTimeTok env.curTime
  let s3 := replaceAllS s2 currentDatetimeTok env.curDatetime
  replaceAllS s3 promptNameTok promptName

/-- The template substitution of composePrompt (src/src/notion.ts lines
262-279): the user-input placeholder is globally replaced first, then the
contextual placeholders are globally replaced over the whole resulting
string.  The dollar-escape semantics of JavaScript replacement strings is
outside the model: the replacement is inserted verbatim. -/
def composePromptText (env : ComposeEnv) (promptName userInput content : String) :
    String :=
  substContextualVars env promptName (replaceAllS content userInputTok userInput)

/-- composePrompt over a resolved snapshot (src/src/notion.ts lines 250-283):
an empty prompt name or empty user input is falsy and short-circuits to none
before any lookup, as does a failed name lookup. -/
def composePrompt (env : ComposeEnv) (prompts : List Prompt)
    (promptName userInput : String) : Option String :=
  if promptName = "" ∨ userInput = "" then none
  else
    match findPromptByName prompts promptName with
    | none => none
    | some p => some (composePromptText env promptName userInput p.content)

/-- One search hit of the search_prompts tool handler. -/
structure SearchResult where
  id : String
  name : String
  description : String
  category : List String
  matchType : String
  deriving DecidableEq

/-- The filter predicate of the search_prompts handler: case-insensitive
substring match on name, description or content (the query argument arrives
already lowercased). -/
def promptMatches (query : String) (p : Prompt) : Bool :=
  containsS (toLowerS p.name) query || containsS (toLowerS p.description) query ||
    containsS (toLowerS p.content) query

/-- The search_prompts tool handler (src/unnamed/part_001 lines 414-436, and
equivalently src/unnamed/part_000 lines 533-563): lowercase the query, keep
the prompts matching in any field, and label each with the highest-priority
matching field: name, else description, else content. -/
def searchPrompts (prompts : List Prompt) (rawQuery : String) : List SearchResult :=
  let query := toLowerS rawQuery
  (prompts.filter (promptMatches query)).map fun p =>
    { id := p.id, name := p.name, description := p.description,
      category := p.category,
      matchType :=
        if containsS (toLowerS p.name) query then "name"
        else if containsS (toLowerS p.description) query then "description"
        else "content" }

def toPromptInfo (p : Prompt) : PromptInfo :=
  { id := p.id, name := p.name, description := p.description, category := p.category }

/-- One page of the paginated listing. -/
structure PaginatedResult where
  items : List PromptInfo
  total : Nat
  totalPages : Nat
  deriving DecidableEq

/-- Modelled from the spec: getPaginatedPrompts is invoked by the
get_paginated_prompts tool handlers (src/unnamed/part_001 line 490 and
src/unnamed/part_003 line 671) but its implementation is not among the
provided source files.  Spec section 4.2: page and pageSize are each clamped
to a minimum of 1; the result is the pageSize-wide window of PromptInfo
starting at item (page-1)*pageSize, together with the total count and
ceil(total / pageSize) total pages; a page beyond the last yields an empty
window, not an error. -/
def getPaginatedPrompts (prompts : List Prompt) (page pageSize : Int) :
    PaginatedResult :=
  let p := (max page 1).toNat
  let ps := (max pageSize 1).toNat
  let infos := prompts.map toPromptInfo
  { items := (infos.drop ((p - 1) * ps)).take ps
    total := infos.length
    totalPages := (infos.length + ps - 1) / ps }

theorem startsWithL_refl (l : List Char) : startsWithL l l = true := by
  induction l with
  | nil => rfl
  | cons a t ih => simp [startsWithL, ih]

theorem replaceAllF_nil (pat rep : List Char) (fuel : Nat) :
    replaceAllF pat rep fuel [] = [] := by
  cases fuel <;> rfl

/-- Replacing a non-empty pattern inside exactly itself yields exactly the
replacement. -/
theorem replaceAllL_whole (pat rep : List Char) (h : pat ≠ []) :
    replaceAllL pat rep pat = rep := by
  match pat with
  | [] => exact absurd rfl h
  | a :: t =>
    show replaceAllF (a :: t) rep (a :: t).length (a :: t) = rep
    rw [List.length_cons]
    simp [replaceAllF, startsWithL_refl, List.drop_length, replaceAllF_nil]

theorem replaceAllS_whole (pat rep : String) (h : pat.data ≠ []) :
    replaceAllS pat pat rep = rep := by
  unfold replaceAllS
  rw [replaceAllL_whole _ _ h]

/-- Claim C1 as stated is false: with template "Hi {{USER_INPUT}}", user input
consisting of the literal text "{{CURRENT_DATE}}" and current date "D", the
composed output is "Hi D" — the date placeholder carried inside the user
input is replaced in the second pass rather than remaining unreplaced. -/
theorem composePrompt_expands_date_in_userInput_cex :
    composePrompt ⟨"D", "T", "DT"⟩
        [{ id := "1", name := "p", content := "Hi \x7b\x7bUSER_INPUT\x7d\x7d",
           description := "", category := ["未分类"] }]
        "p" "\x7b\x7bCURRENT_DATE\x7d\x7d"
      = some "Hi D" ∧
    containsS "Hi D" currentDateTok = false := by
  constructor
  · decide
  · decide

/-- Claim C1, corrected: substitution is two ordered global passes — first
every occurrence of the user-input placeholder is replaced with userInput,
then the contextual placeholders are each globally replaced — but the second
pass runs over the whole intermediate string, so contextual placeholder text
contributed by the user input is expanded rather than preserved: composing
the bare user-input template with any user input yields exactly the
contextual substitution pass applied to that input. -/
theorem composePrompt_two_pass_expands_userInput (env : ComposeEnv)
    (promptName u : String) :
    composePromptText env promptName u userInputTok
      = substContextualVars env promptName u := by
  unfold composePromptText
  rw [replaceAllS_whole _ _ (by decide)]

/-- Claim C2, corrected: when the connector fails, the refresh triggered by
getPrompts on an invalid (absent or expired) cache leaves the whole state
untouched and surfaces the typed error; but refreshCache nulls the snapshot
before fetching, so on failure the previous list is dropped and the cache is
left cold, with the same typed error surfaced. -/
theorem fetchFailure_cache_behavior (st : CacheState) (now : Int) (e : String)
    (h : isCacheValid st now = false) :
    getPrompts st now (Except.error e) = (Except.error (fetchFailMsg e), st) ∧
    refreshCache st now (Except.error e)
      = (Except.error (fetchFailMsg e), { st with promptsCache := none }) := by
  constructor
  · simp [getPrompts, h, fetchPrompts]
  · simp [refreshCache, getPrompts, isCacheValid, fetchPrompts]

def samplePrompt : Prompt :=
  { id := "id0", name := "n", content := "c", description := "d",
    category := ["未分类"] }

/-- A state whose cache holds one prompt, captured at time 0 with the default
five-minute expiry. -/
def cachedState : CacheState :=
  { promptsCache := some [samplePrompt], lastCacheTime := 0,
    cacheExpiryTime := 300000 }

/-- Claim C2 as stated is false for the refreshCache trigger: starting from a
state whose cache holds one prompt, a failing refresh leaves the cache
cleared, not untouched. -/
theorem refreshCache_failure_drops_snapshot_cex :
    (refreshCache cachedState 0 (Except.error "boom")).2.promptsCache = none ∧
    cachedState.promptsCache = some [samplePrompt] := by
  constructor
  · decide
  · decide

theorem fetchFailure_cache_behavior_witness :
    getPrompts initialCacheState 0 (Except.error "x")
      = (Except.error (fetchFailMsg "x"), initialCacheState) ∧
    refreshCache initialCacheState 0 (Except.error "x")
      = (Except.error (fetchFailMsg "x"),
         { initialCacheState with promptsCache := none }) :=
  fetchFailure_cache_behavior initialCacheState 0 "x" (by decide)

/-- Claim C3: with a populated snapshot valid at both call times, two
successive getPrompts calls perform zero connector fetches — the first call
leaves the state unchanged, and the second call returns the cached list
unchanged without invoking the connector, whatever responses the connector
would have given. -/
theorem getPrompts_idempotent_within_expiry (st : CacheState) (t1 t2 : Int)
    (r1 r2 : FetchResponse) (h1 : isCacheValid st t1 = true)
    (h2 : isCacheValid st t2 = true) :
    promptFetchCount st t1 = 0 ∧
    getPrompts st t1 r1 = (Except.ok (st.promptsCache.getD []), st) ∧
    promptFetchCount (getPrompts st t1 r1).2 t2 = 0 ∧
    getPrompts (getPrompts st t1 r1).2 t2 r2
      = (Except.ok (st.promptsCache.getD []), st) := by
  refine ⟨?_, ?_, ?_, ?_⟩ <;> simp [promptFetchCount, getPrompts, h1, h2]

theorem getPrompts_idempotent_witness :
    promptFetchCount cachedState 1 = 0 ∧
    getPrompts cachedState 1 (Except.error "x")
      = (Except.ok [samplePrompt], cachedState) ∧
    promptFetchCount (getPrompts cachedState 1 (Except.error "x")).2 2 = 0 ∧
    getPrompts (getPrompts cachedState 1 (Except.error "x")).2 2 (Except.error "y")
      = (Except.ok [samplePrompt], cachedState) :=
  getPrompts_idempotent_within_expiry cachedState 1 2
    (Except.error "x") (Except.error "y") (by decide) (by decide)

/-- Claim C9: setCacheExpiryTime clamps any value below 1000 milliseconds up
to 1000 and applies any value at or above 1000 exactly, as observed through
getCacheExpiryTime. -/
theorem setCacheExpiryTime_floor (st : CacheState) (t : Int) :
    (t < 1000 → getCacheExpiryTime (setCacheExpiryTime st t) = 1000) ∧
    (1000 ≤ t → getCacheExpiryTime (setCacheExpiryTime st t) = t) := by
  constructor
  · intro h
    simp [getCacheExpiryTime, setCacheExpiryTime, h]
  · intro h
    simp [getCacheExpiryTime, setCacheExpiryTime, not_lt.mpr h]

theorem setCacheExpiryTime_floor_witness :
    getCacheExpiryTime (setCacheExpiryTime initialCacheState 500) = 1000 ∧
    getCacheExpiryTime (setCacheExpiryTime initialCacheState 2000) = 2000 :=
  ⟨(setCacheExpiryTime_floor initialCacheState 500).1 (by decide),
   (setCacheExpiryTime_floor initialCacheState 2000).2 (by decide)⟩

/-- Claim C10: an empty user input, or an empty prompt name, makes
composePrompt return none regardless of the snapshot — the outcome does not
depend on the prompt list at all, so at the interface it is indistinguishable
from a missing prompt. -/
theorem composePrompt_empty_input_none (env : ComposeEnv)
    (prompts otherPrompts : List Prompt) (name input : String) :
    composePrompt env prompts name "" = none ∧
    composePrompt env prompts "" input = none ∧
    composePrompt env prompts name ""
      = composePrompt env otherPrompts name "" := by
  refine ⟨?_, ?_, ?_⟩ <;> simp [composePrompt]

/-- Claim C4 (operation modelled from the spec): page and pageSize are each
clamped to a minimum of 1, total is the snapshot size, totalPages is the
ceiling division of the total by the clamped page size, and any page whose
window starts at or beyond the end of the snapshot yields an empty item list
rather than an error. -/
theorem getPaginatedPrompts_spec (prompts : List Prompt) (page pageSize : Int) :
    getPaginatedPrompts prompts page pageSize
      = getPaginatedPrompts prompts (max page 1) (max pageSize 1) ∧
    (getPaginatedPrompts prompts page pageSize).total = prompts.length ∧
    (getPaginatedPrompts prompts page pageSize).totalPages
      = prompts.length ⌈/⌉ (max pageSize 1).toNat ∧
    (prompts.length ≤ ((max page 1).toNat - 1) * (max pageSize 1).toNat →
      (getPaginatedPrompts prompts page pageSize).items = []) := by
  have e1 : max (max page 1) 1 = max page 1 := max_eq_left (le_max_right _ _)
  have e2 : max (max pageSize 1) 1 = max pageSize 1 := max_eq_left (le_max_right _ _)
  refine ⟨by simp [getPaginatedPrompts, e1, e2], by simp [getPaginatedPrompts],
    by simp [getPaginatedPrompts, Nat.ceilDiv_eq_add_pred_div], ?_⟩
  intro h
  have hd : (prompts.map toPromptInfo).drop
      (((max page 1).toNat - 1) * (max pageSize 1).toNat) = [] :=
    List.drop_of_length_le (by simpa using h)
  simp [getPaginatedPrompts, hd]

def blankPrompt (i name : String) : Prompt :=
  { id := i, name := name, content := "", description := "",
    category := ["未分类"] }

def fivePrompts : List Prompt :=
  [blankPrompt "1" "a", blankPrompt "2" "b", blankPrompt "3" "c",
   blankPrompt "4" "d", blankPrompt "5" "e"]

theorem getPaginatedPrompts_spec_witness :
    (getPaginatedPrompts fivePrompts 100 10).items = [] ∧
    (getPaginatedPrompts fivePrompts 100 10).total = 5 ∧
    (getPaginatedPrompts fivePrompts 100 10).totalPages = 1 := by
  refine ⟨(getPaginatedPrompts_spec fivePrompts 100 10).2.2.2 (by decide), ?_, ?_⟩
  · simpa [fivePrompts] using (getPaginatedPrompts_spec fivePrompts 100 10).2.1
  · decide

/-- Claim C5: every search result arises from exactly one matching prompt
(the result list is as long as the filtered prompt list, so a matching prompt
is returned once) and is classified by the highest-priority matching field
only, case-insensitively: name if the lowercased name contains the lowercased
query, else description, else content. -/
theorem searchPrompts_classification (prompts : List Prompt) (rawQuery : String) :
    (searchPrompts prompts rawQuery).length
      = (prompts.filter (promptMatches (toLowerS rawQuery))).length ∧
    ∀ r ∈ searchPrompts prompts rawQuery,
      ∃ p ∈ prompts, r.id = p.id ∧ r.name = p.name ∧
        r.description = p.description ∧
        ((containsS (toLowerS p.name) (toLowerS rawQuery) = true ∧
            r.matchType = "name") ∨
         (containsS (toLowerS p.name) (toLowerS rawQuery) = false ∧
          containsS (toLowerS p.description) (toLowerS rawQuery) = true ∧
            r.matchType = "description") ∨
         (containsS (toLowerS p.name) (toLowerS rawQuery) = false ∧
          containsS (toLowerS p.description) (toLowerS rawQuery) = false ∧
          containsS (toLowerS p.content) (toLowerS rawQuery) = true ∧
            r.matchType = "content")) := by
  constructor
  · simp [searchPrompts]
  · intro r hr
    simp only [searchPrompts, List.mem_map, List.mem_filter] at hr
    obtain ⟨p, ⟨hp, hm⟩, rfl⟩ := hr
    refine ⟨p, hp, rfl, rfl, rfl, ?_⟩
    by_cases hn : containsS (toLowerS p.name) (toLowerS rawQuery) = true
    · exact Or.inl ⟨hn, by simp [hn]⟩
    · rw [Bool.not_eq_true] at hn
      by_cases hd : containsS (toLowerS p.description) (toLowerS rawQuery) = true
      · exact Or.inr (Or.inl ⟨hn, hd, by simp [hn, hd]⟩)
      · rw [Bool.not_eq_true] at hd
        refine Or.inr (Or.inr ⟨hn, hd, ?_, by simp [hn, hd]⟩)
        simpa [promptMatches, hn, hd] using hm

def translatorPrompt : Prompt :=
  { id := "t1", name := "Translator",
    content := "translate this: \x7b\x7bUSER_INPUT\x7d\x7d",
    description := "helps translate", category := ["工具"] }

def translatorHit : SearchResult :=
  { id := "t1", name := "Translator", description := "helps translate",
    category := ["工具"], matchType := "description" }

theorem searchPrompts_classification_witness :
    searchPrompts [translatorPrompt] "translate" = [translatorHit] ∧
    (∃ p ∈ [translatorPrompt], translatorHit.id = p.id ∧
      translatorHit.name = p.name ∧ translatorHit.description = p.description ∧
      ((containsS (toLowerS p.name) (toLowerS "translate") = true ∧
          translatorHit.matchType = "name") ∨
       (containsS (toLowerS p.name) (toLowerS "translate") = false ∧
        containsS (toLowerS p.description) (toLowerS "translate") = true ∧
          translatorHit.matchType = "description") ∨
       (containsS (toLowerS p.name) (toLowerS "translate") = false ∧
        containsS (toLowerS p.description) (toLowerS "translate") = false ∧
        containsS (toLowerS p.content) (toLowerS "translate") = true ∧
          translatorHit.matchType = "content"))) :=
  ⟨by decide,
   (searchPrompts_classification [translatorPrompt] "translate").2
     translatorHit (by decide)⟩

/-- Claim C6: findPromptByName returns the first prompt in snapshot order
whose name equals the argument exactly — every earlier prompt has a different
name — and returns none exactly when no prompt in the snapshot has that name;
it is a total function into Option, so it never throws. -/
theorem findPromptByName_first_match (prompts : List Prompt) (name : String) :
    (∀ p, findPromptByName prompts name = some p →
      p.name = name ∧ ∃ i, prompts.get? i = some p ∧
        ∀ q ∈ prompts.take i, q.name ≠ name) ∧
    (findPromptByName prompts name = none ↔ ∀ p ∈ prompts, p.name ≠ name) := by
  induction prompts with
  | nil => simp [findPromptByName]
  | cons a as ih =>
    by_cases h : a.name = name
    · have hfind : findPromptByName (a :: as) name = some a :=
        List.find?_cons_of_pos _ (by simp [h])
      constructor
      · intro p hp
        rw [hfind] at hp
        injection hp with hp
        subst hp
        exact ⟨h, 0, rfl, by simp⟩
      · rw [hfind]
        constructor
        · intro hc
          simp at hc
        · intro hall
          exact absurd h (hall a (by simp))
    · have hfind : findPromptByName (a :: as) name = findPromptByName as name :=
        List.find?_cons_of_neg _ (by simp [h])
      constructor
      · intro p hp
        rw [hfind] at hp
        obtain ⟨hn, i, hi, htake⟩ := ih.1 p hp
        refine ⟨hn, i + 1, hi, ?_⟩
        intro q hq
        rw [List.take_succ_cons] at hq
        rcases List.mem_cons.mp hq with rfl | hq2
        · exact h
        · exact htake q hq2
      · rw [hfind, ih.2]
        constructor
        · intro hall p hp
          rcases List.mem_cons.mp hp with rfl | hp2
          · exact h
          · exact hall p hp2
        · intro hall p hp
          exact hall p (List.mem_cons_of_mem a hp)

def dupA : Prompt := blankPrompt "d1" "dup"

def dupB : Prompt := blankPrompt "d2" "dup"

theorem findPromptByName_first_match_witness :
    (dupA.name = "dup" ∧ ∃ i, [dupA, dupB].get? i = some dupA ∧
      ∀ q ∈ [dupA, dupB].take i, q.name ≠ "dup") ∧
    (findPromptByName [dupA, dupB] "nonexistent" = none ↔
      ∀ p ∈ [dupA, dupB], p.name ≠ "nonexistent") :=
  ⟨(findPromptByName_first_match [dupA, dupB] "dup").1 dupA (by decide),
   (findPromptByName_first_match [dupA, dupB] "nonexistent").2⟩

/-- Claim C7: the normalizer skips, without throwing, any record whose name
field is missing or an empty segment list; a record whose processing errors
is dropped without aborting the batch, the remaining records normalizing
exactly as they would without it; and every record that normalizes
successfully contributes its prompt to the resulting snapshot. -/
theorem normalizeBatch_skip_and_survive (page : RawPage)
    (xs ys records : List (Except String RawPage)) (e : String) (q : Prompt) :
    (page.title = none ∨ page.title = some [] → normalizeRecord page = none) ∧
    normalizeBatch (xs ++ Except.error e :: ys) = normalizeBatch (xs ++ ys) ∧
    (Except.ok page ∈ records → normalizeRecord page = some q →
      q ∈ normalizeBatch records) := by
  refine ⟨?_, ?_, ?_⟩
  · rintro (h | h) <;> simp [normalizeRecord, h]
  · simp [normalizeBatch, List.filterMap_append]
  · intro hmem hnorm
    unfold normalizeBatch
    exact List.mem_filterMap.mpr ⟨Except.ok page, hmem, by simpa using hnorm⟩

def goodPage : RawPage :=
  { id := "g1", title := some ["Good"], contentSegs := some ["body"],
    descriptionSegs := none, categoryNames := some ["cat"] }

def namelessPage : RawPage :=
  { id := "g2", title := none, contentSegs := some ["x"],
    descriptionSegs := none, categoryNames := none }

def goodPrompt : Prompt :=
  { id := "g1", name := "Good", content := "body", description := "",
    category := ["cat"] }

theorem normalizeBatch_skip_and_survive_witness :
    normalizeRecord namelessPage = none ∧
    normalizeBatch
        ([Except.ok goodPage] ++ Except.error "x" :: [Except.ok namelessPage])
      = normalizeBatch ([Except.ok goodPage] ++ [Except.ok namelessPage]) ∧
    goodPrompt ∈ normalizeBatch
      [Except.ok goodPage, Except.error "x", Except.ok namelessPage] :=
  ⟨(normalizeBatch_skip_and_survive namelessPage [] [] [] "x" goodPrompt).1
      (Or.inl rfl),
   (normalizeBatch_skip_and_survive namelessPage [Except.ok goodPage]
      [Except.ok namelessPage] [] "x" goodPrompt).2.1,
   (normalizeBatch_skip_and_survive goodPage [] []
      [Except.ok goodPage, Except.error "x", Except.ok namelessPage] "x"
      goodPrompt).2.2 (List.mem_cons_self _ _) (by decide)⟩

def emptyNamePage : RawPage :=
  { id := "e1", title := some [""], contentSegs := none,
    descriptionSegs := none, categoryNames := none }

def emptyNamePrompt : Prompt :=
  { id := "e1", name := "", content := "", description := "",
    category := ["未分类"] }

/-- Claim C8 as stated is false for the name part: a record whose title holds
a single empty text segment passes the only check the code makes (a non-empty
segment list) and normalizes to a prompt whose name is the empty string. -/
theorem normalizeRecord_empty_name_cex :
    normalizeRecord emptyNamePage = some emptyNamePrompt ∧
    emptyNamePrompt.name = "" := by
  constructor
  · decide
  · decide

/-- Claim C8, corrected: every normalized prompt comes from a record whose
title segment list is non-empty and takes its name from the first segment,
which may itself be the empty string, so a non-empty name string is not
guaranteed; its category list is never empty, and is exactly the single
sentinel "未分类" (uncategorized) when the record carries no category
labels. -/
theorem normalizeRecord_invariants (page : RawPage) (p : Prompt)
    (h : normalizeRecord page = some p) :
    (∃ t rest, page.title = some (t :: rest) ∧ p.name = t) ∧
    p.category ≠ [] ∧
    ((page.categoryNames = none ∨ page.categoryNames = some []) →
      p.category = ["未分类"]) := by
  rcases ht : page.title with _ | segs
  · rw [normalizeRecord, ht] at h
    cases h
  · rcases segs with _ | ⟨t, rest⟩
    · rw [normalizeRecord, ht] at h
      cases h
    · rw [normalizeRecord, ht] at h
      injection h with h
      subst h
      refine ⟨⟨t, rest, rfl, rfl⟩, ?_, ?_⟩
      · dsimp
        split
        · simp
        · rename_i hlen
          exact fun hnil => hlen (by rw [hnil]; rfl)
      · rintro (hc | hc) <;> simp [hc]

theorem normalizeRecord_invariants_witness :
    (∃ t rest, emptyNamePage.title = some (t :: rest) ∧
      emptyNamePrompt.name = t) ∧
    emptyNamePrompt.category ≠ [] ∧
    ((emptyNamePage.categoryNames = none ∨
        emptyNamePage.categoryNames = some []) →
      emptyNamePrompt.category = ["未分类"]) :=
  normalizeRecord_invariants emptyNamePage emptyNamePrompt (by decide)

end NotionPrompt
